import Mathlib

/-!
Verification of the Crates_Box dashboard pipeline (`src/Crstea_Box.py`).

The script downloads a DuckDB file (`get_duckdb`), runs one SQL query with
two left joins computing a derived ratio (`load_data`), coerces the sale
date column and drops invalid dates, filters the loaded rows by a date
range and by selected supervisor / crates-per-box sets, and aggregates the
result into a route-by-date pivot with a `Total` column.

Shallow embedding conventions:
* a SQL/pandas table is a `List` of structure rows;
* SQL `NULL` / pandas `NaN` in a nullable column is `Option.none`;
* `DOUBLE` arithmetic is embedded over `ℚ` (the claims concern the shape
  of the computation, not rounding of IEEE doubles);
* a date is an `Int` (day number); `pd.to_datetime(..., errors='coerce')`
  is embedded by letting the raw date column be `Option Int`, `none`
  standing for a value whose coercion failed;
* `st.stop()` after `st.error(...)` halts the render cycle: a computation
  that can stop is embedded as `Except`.
-/

/-- A row of the `sales` fact table: `Code`, `Sales_Date`, `Qty`, `Route`.
`salesDate` is the value as seen after `pd.to_datetime(..., errors='coerce')`:
`none` means the stored date failed coercion. -/
structure SaleRow where
  code : String
  salesDate : Option Int
  qty : ℚ
  route : String
deriving DecidableEq, Repr

/-- A row of the `Products` dimension table: `Code`, `Description`, `Cake`,
`Cr_Bo`. The dimension columns are nullable. -/
structure ProductRow where
  code : String
  description : Option String
  cake : Option ℚ
  crBo : Option ℚ
deriving DecidableEq, Repr

/-- A row of the `Supervisors` dimension table: `Route`, `Supervisor`. -/
structure SupervisorRow where
  route : String
  supervisor : Option String
deriving DecidableEq, Repr

/-- A row of `complete_df`, the result set of the SQL query in `load_data`:
`Code`, `Sales_Date`, `Qty`, `Route`, `Description`, `Cake`,
`Cr_Bo AS Crates_Box`, `Supervisor`, and the computed `Crt_Box`. -/
structure EnrichedRow where
  code : String
  salesDate : Option Int
  qty : ℚ
  route : String
  description : Option String
  cake : Option ℚ
  cratesBox : Option ℚ
  supervisor : Option String
  crtBox : Option ℚ
deriving DecidableEq, Repr

/-- The `CASE WHEN p.Cake IS NOT NULL AND p.Cake <> 0 THEN
CAST(s.Qty AS DOUBLE) / CAST(p.Cake AS DOUBLE) ELSE NULL END` expression. -/
def crtBoxExpr (qty : ℚ) (cake : Option ℚ) : Option ℚ :=
  match cake with
  | some c => if c ≠ 0 then some (qty / c) else none
  | none => none

/-- SQL `TRIM`: strip leading and trailing space characters. (Defined over
the character list so that it evaluates by kernel reduction.) -/
def sqlTrim (s : String) : String :=
  String.mk (((s.data.dropWhile (fun c => c = ' ')).reverse.dropWhile
    (fun c => c = ' ')).reverse)

/-- `LEFT JOIN Products AS p ON TRIM(CAST(s.Code AS VARCHAR)) =
TRIM(CAST(p.Code AS VARCHAR))`: the products matching a sales row. -/
def matchingProducts (s : SaleRow) (products : List ProductRow) : List ProductRow :=
  products.filter (fun p => sqlTrim s.code == sqlTrim p.code)

/-- `LEFT JOIN Supervisors AS sup ON s.Route = sup.Route`: the supervisor
rows matching a sales row. -/
def matchingSupervisors (s : SaleRow) (sups : List SupervisorRow) : List SupervisorRow :=
  sups.filter (fun sup => s.route == sup.route)

/-- Left-join semantics for one sales row against one dimension table:
one output per match, or a single output paired with `none` when there is
no match. -/
def leftOuter {α : Type} (matches_ : List α) : List (Option α) :=
  match matches_ with
  | [] => [none]
  | ms => ms.map some

/-- Assemble one `complete_df` row from a sales row and its (possibly
absent) product and supervisor matches, computing `Crt_Box`. -/
def mkEnriched (s : SaleRow) (p : Option ProductRow) (sup : Option SupervisorRow) :
    EnrichedRow :=
  { code := s.code
    salesDate := s.salesDate
    qty := s.qty
    route := s.route
    description := p.bind ProductRow.description
    cake := p.bind ProductRow.cake
    cratesBox := p.bind ProductRow.crBo
    supervisor := sup.bind SupervisorRow.supervisor
    crtBox := crtBoxExpr s.qty (p.bind ProductRow.cake) }

/-- The SQL query of `load_data`: `sales LEFT JOIN Products LEFT JOIN
Supervisors` with the projected columns and the computed `Crt_Box`. -/
def enrichedTable (sales : List SaleRow) (products : List ProductRow)
    (sups : List SupervisorRow) : List EnrichedRow :=
  sales.flatMap (fun s =>
    (leftOuter (matchingProducts s products)).flatMap (fun p =>
      (leftOuter (matchingSupervisors s sups)).map (fun sup =>
        mkEnriched s p sup)))

/-- A row of `df`, the frame `load_data` returns: the projection
`['Sales_Date', 'Route', 'Crates_Box', 'Crt_Box', 'Supervisor']` after
date coercion succeeded (so `date` is no longer optional). -/
structure LoadedRow where
  date : Int
  route : String
  cratesBox : Option ℚ
  crtBox : Option ℚ
  supervisor : Option String
deriving DecidableEq, Repr

/-- Project a `complete_df` row with a valid (coerced) date onto the
columns `load_data` keeps. -/
def projectLoaded (e : EnrichedRow) (d : Int) : LoadedRow :=
  { date := d
    route := e.route
    cratesBox := e.cratesBox
    crtBox := e.crtBox
    supervisor := e.supervisor }

/-- The pandas tail of `load_data`: select the five columns, coerce
`Sales_Date` (already reflected in the `Option Int` column) and
`dropna(subset=['Sales_Date'])`. -/
def loadData (complete : List EnrichedRow) : List LoadedRow :=
  complete.filterMap (fun e =>
    match e.salesDate with
    | some d => some (projectLoaded e d)
    | none => none)

/-- The supervisor filter domain:
`sorted([str(s) for s in data['Supervisor'].dropna().unique().tolist()])` —
the distinct non-null `Supervisor` values, sorted ascending. -/
def supervisorOptions (data : List LoadedRow) : List String :=
  ((data.filterMap LoadedRow.supervisor).dedup).mergeSort (fun a b => !decide (b < a))

/-- The crates-per-box filter domain:
`sorted([float(c) for c in data['Crates_Box'].dropna().unique().tolist()])` —
the distinct non-null `Crates_Box` values, sorted ascending. -/
def cratesBoxOptions (data : List LoadedRow) : List ℚ :=
  ((data.filterMap LoadedRow.cratesBox).dedup).mergeSort (fun a b => decide (a ≤ b))

/-- The boolean mask of the `filtered_data` selection: date within
`[start_date, end_date]`, `Supervisor.isin(selected_supervisors)` and
`Crates_Box.isin(selected_crates_box)`. A null (`none`) `Supervisor` or
`Crates_Box` is in no selection list, as in pandas where the selection
lists hold only non-null values. -/
def rowKeep (startDate endDate : Int) (supSel : List String) (cbSel : List ℚ)
    (r : LoadedRow) : Bool :=
  (startDate ≤ r.date) && (r.date ≤ endDate) &&
  (match r.supervisor with
   | some s => supSel.contains s
   | none => false) &&
  (match r.cratesBox with
   | some c => cbSel.contains c
   | none => false)

/-- `filtered_data`: if both selection lists are non-empty, the conjunctive
row filter; otherwise `pd.DataFrame()` (the empty table). -/
def filteredData (startDate endDate : Int) (supSel : List String) (cbSel : List ℚ)
    (data : List LoadedRow) : List LoadedRow :=
  if supSel ≠ [] ∧ cbSel ≠ [] then
    data.filter (rowKeep startDate endDate supSel cbSel)
  else []

/-- The dashboard's render cycle from the sidebar inputs to the filtered
table: the `start_date > end_date` validation (`st.error` + `st.stop()`)
runs first; only past it is `filtered_data` computed. -/
inductive DashboardError where
  | validationError
deriving DecidableEq, Repr

/-- `if start_date > end_date: st.error(...); st.stop()` followed by the
`filtered_data` computation. `Except.error` is the halted render cycle. -/
def filterCycle (data : List LoadedRow) (startDate endDate : Int)
    (supSel : List String) (cbSel : List ℚ) :
    Except DashboardError (List LoadedRow) :=
  if endDate < startDate then
    Except.error DashboardError.validationError
  else
    Except.ok (filteredData startDate endDate supSel cbSel data)

/-- pandas `Series.sum()` with the default `skipna=True`: null entries are
skipped; an all-null (or empty) series sums to `0`. -/
def pandasSum (l : List (Option ℚ)) : ℚ :=
  (l.filterMap id).sum

/-- The rows of `filtered_data` in the `(Sales_Date, Route)` group of the
`groupby(['Sales_Date', 'Route'])`. -/
def groupRows (data : List LoadedRow) (route : String) (d : Int) : List LoadedRow :=
  data.filter (fun r => r.route == route && r.date == d)

/-- The distinct routes of `filtered_data`: the row index of the pivot. -/
def pivotRoutes (data : List LoadedRow) : List String :=
  (data.map LoadedRow.route).dedup

/-- The distinct dates of `filtered_data`: the column index of the pivot. -/
def pivotDates (data : List LoadedRow) : List Int :=
  (data.map LoadedRow.date).dedup

/-- A cell of `pivot_data.pivot(index='Route', columns='Sales_Date',
values='Crt_Box')` before `fillna(0)`: `none` (`NaN`) when the
`(route, date)` combination is absent from the data, otherwise the
null-safe group sum of `Crt_Box`. -/
def rawPivotCell (data : List LoadedRow) (route : String) (d : Int) : Option ℚ :=
  if (groupRows data route d).isEmpty then none
  else some (pandasSum ((groupRows data route d).map LoadedRow.crtBox))

/-- The `Total` column: `pivot_table.sum(axis=1)`, a null-skipping sum over
the date columns, computed before `fillna(0)`. -/
def pivotTotal (data : List LoadedRow) (route : String) : ℚ :=
  pandasSum ((pivotDates data).map (rawPivotCell data route))

/-- A displayed/exported cell of the pivot, after `fillna(0)`. -/
def pivotCell (data : List LoadedRow) (route : String) (d : Int) : ℚ :=
  (rawPivotCell data route d).getD 0

/-- The `get_duckdb` world: whether `dispatch.duckdb` exists locally, and
its bytes when it does. -/
structure FileState where
  present : Bool
  content : Option (List Nat)
deriving DecidableEq, Repr

/-- The outcome of `requests.get(url, ...)`: a response with a status code
and a body, or a raised transport exception. -/
inductive FetchOutcome where
  | response (statusCode : Nat) (body : List Nat)
  | transportError
deriving DecidableEq, Repr

/-- `get_duckdb` halts the render cycle (`st.error` + `st.stop()`) on a
non-200 status or a raised exception. -/
inductive ProvisionError where
  | badStatus (statusCode : Nat)
  | transport
deriving DecidableEq, Repr

/-- The provisioning step of `get_duckdb`: if the file exists, no fetch is
performed and the state is unchanged; otherwise one blocking fetch runs,
a non-200 status or a transport error halts, and on 200 the full body is
written to the file. The returned `Bool` records whether a fetch was
performed. -/
def provisionDb (fs : FileState) (fetch : FetchOutcome) :
    Except ProvisionError (FileState × Bool) :=
  if fs.present then
    Except.ok (fs, false)
  else
    match fetch with
    | FetchOutcome.transportError => Except.error ProvisionError.transport
    | FetchOutcome.response status body =>
        if status ≠ 200 then Except.error (ProvisionError.badStatus status)
        else Except.ok ({ present := true, content := some body }, true)

/-! Helper lemmas shared by the claim theorems. -/

theorem leftOuter_ne_nil {α : Type} (ms : List α) : leftOuter ms ≠ [] := by
  cases ms <;> simp [leftOuter]

theorem some_mem_leftOuter {α : Type} {a : α} {ms : List α} (h : a ∈ ms) :
    some a ∈ leftOuter ms := by
  cases ms with
  | nil => cases h
  | cons x t => exact List.mem_map_of_mem some h

theorem none_mem_leftOuter_nil {α : Type} : none ∈ leftOuter ([] : List α) := by
  simp [leftOuter]

/-- Membership in the joined result set, unfolded to its three generators. -/
theorem mem_enrichedTable {sales : List SaleRow} {products : List ProductRow}
    {sups : List SupervisorRow} {r : EnrichedRow} :
    r ∈ enrichedTable sales products sups ↔
      ∃ s ∈ sales, ∃ p ∈ leftOuter (matchingProducts s products),
        ∃ sup ∈ leftOuter (matchingSupervisors s sups), r = mkEnriched s p sup := by
  constructor
  · intro h
    simp only [enrichedTable, List.mem_flatMap, List.mem_map] at h
    obtain ⟨s, hs, p, hp, sup, hsup, hr⟩ := h
    exact ⟨s, hs, p, hp, sup, hsup, hr.symm⟩
  · rintro ⟨s, hs, p, hp, sup, hsup, rfl⟩
    simp only [enrichedTable, List.mem_flatMap, List.mem_map]
    exact ⟨s, hs, p, hp, sup, hsup, rfl⟩

theorem pandasSum_eq_sum_getD (l : List (Option ℚ)) :
    pandasSum l = (l.map (fun o => o.getD 0)).sum := by
  induction l with
  | nil => rfl
  | cons h t ih =>
    simp only [pandasSum] at ih
    cases h with
    | none =>
      simp only [pandasSum, List.filterMap_cons_none, List.map_cons, Option.getD_none,
        List.sum_cons, zero_add]
      exact ih
    | some v =>
      show (v :: List.filterMap id t).sum = ((some v :: t).map (fun o => o.getD 0)).sum
      simp only [List.map_cons, Option.getD_some, List.sum_cons]
      rw [ih]

/-! The claim theorems. -/

/-- C1: for every enriched sale row, the derived `Crt_Box` ratio equals
`Qty / Cake` when the joined product's `Cake` is non-null and non-zero,
and is null when `Cake` is null or zero. -/
theorem crtBox_ratio_spec (sales : List SaleRow) (products : List ProductRow)
    (sups : List SupervisorRow) (r : EnrichedRow)
    (hr : r ∈ enrichedTable sales products sups) :
    (r.cake = none → r.crtBox = none) ∧
    (r.cake = some 0 → r.crtBox = none) ∧
    (∀ c : ℚ, r.cake = some c → c ≠ 0 → r.crtBox = some (r.qty / c)) := by
  obtain ⟨s, _, p, _, sup, _, rfl⟩ := mem_enrichedTable.mp hr
  simp only [mkEnriched, crtBoxExpr]
  cases hc : p.bind ProductRow.cake with
  | none => simp
  | some c =>
    refine ⟨by simp, ?_, ?_⟩
    · intro h0
      rw [Option.some_inj] at h0
      simp [h0]
    · intro c' hc' hne
      rw [Option.some_inj] at hc'
      subst hc'
      simp [hne]

theorem crtBox_ratio_spec_witness :
    ∃ r ∈ enrichedTable [⟨"1", some 0, 10, "A"⟩]
        [⟨"1", some "cake", some 5, some 2⟩] [⟨"A", some "X"⟩],
      (r.cake = none → r.crtBox = none) ∧
      (r.cake = some 0 → r.crtBox = none) ∧
      (∀ c : ℚ, r.cake = some c → c ≠ 0 → r.crtBox = some (r.qty / c)) :=
  have hmem : mkEnriched ⟨"1", some 0, 10, "A"⟩ (some ⟨"1", some "cake", some 5, some 2⟩)
      (some ⟨"A", some "X"⟩) ∈
      enrichedTable [⟨"1", some 0, 10, "A"⟩] [⟨"1", some "cake", some 5, some 2⟩]
        [⟨"A", some "X"⟩] :=
    mem_enrichedTable.mpr ⟨⟨"1", some 0, 10, "A"⟩, List.mem_singleton.mpr rfl,
      some ⟨"1", some "cake", some 5, some 2⟩, some_mem_leftOuter (by decide),
      some ⟨"A", some "X"⟩, some_mem_leftOuter (by decide), rfl⟩
  ⟨mkEnriched ⟨"1", some 0, 10, "A"⟩ (some ⟨"1", some "cake", some 5, some 2⟩)
      (some ⟨"A", some "X"⟩), hmem,
    crtBox_ratio_spec [⟨"1", some 0, 10, "A"⟩] [⟨"1", some "cake", some 5, some 2⟩]
      [⟨"A", some "X"⟩] _ hmem⟩

/-- C3: every sales row appears in the enriched table even when its code
has no product match or its route has no supervisor match; an unmatched
dimension contributes null columns (`Description`, `Cake`, `Crates_Box`
and the ratio for an unmatched product; `Supervisor` for an unmatched
route), and the row is never dropped. -/
theorem left_join_preserves_sales (sales : List SaleRow) (products : List ProductRow)
    (sups : List SupervisorRow) (s : SaleRow) (hs : s ∈ sales) :
    ∃ r ∈ enrichedTable sales products sups,
      r.code = s.code ∧ r.salesDate = s.salesDate ∧ r.qty = s.qty ∧ r.route = s.route ∧
      ((∀ p ∈ products, sqlTrim s.code ≠ sqlTrim p.code) →
        r.description = none ∧ r.cake = none ∧ r.cratesBox = none ∧ r.crtBox = none) ∧
      ((∀ sup ∈ sups, s.route ≠ sup.route) → r.supervisor = none) := by
  have hpmem : ∀ mp : Option ProductRow,
      mp ∈ leftOuter (matchingProducts s products) →
      ∀ msup : Option SupervisorRow,
      msup ∈ leftOuter (matchingSupervisors s sups) →
      mkEnriched s mp msup ∈ enrichedTable sales products sups := by
    intro mp hmp msup hmsup
    exact mem_enrichedTable.mpr ⟨s, hs, mp, hmp, msup, hmsup, rfl⟩
  obtain ⟨mp, hmp, hmpnull⟩ :
      ∃ mp ∈ leftOuter (matchingProducts s products),
        ((∀ p ∈ products, sqlTrim s.code ≠ sqlTrim p.code) → mp = none) := by
    cases hc : matchingProducts s products with
    | nil => exact ⟨none, none_mem_leftOuter_nil, fun _ => rfl⟩
    | cons p0 ps =>
      have hp0 : p0 ∈ matchingProducts s products := by
        rw [hc]; exact List.mem_cons_self p0 ps
      have hf := List.mem_filter.mp hp0
      refine ⟨some p0, some_mem_leftOuter (List.mem_cons_self p0 ps), fun hnone => ?_⟩
      exact absurd (eq_of_beq hf.2) (hnone p0 hf.1)
  obtain ⟨msup, hmsup, hmsupnull⟩ :
      ∃ msup ∈ leftOuter (matchingSupervisors s sups),
        ((∀ sup ∈ sups, s.route ≠ sup.route) → msup = none) := by
    cases hc : matchingSupervisors s sups with
    | nil => exact ⟨none, none_mem_leftOuter_nil, fun _ => rfl⟩
    | cons q0 qs =>
      have hq0 : q0 ∈ matchingSupervisors s sups := by
        rw [hc]; exact List.mem_cons_self q0 qs
      have hf := List.mem_filter.mp hq0
      refine ⟨some q0, some_mem_leftOuter (List.mem_cons_self q0 qs), fun hnone => ?_⟩
      exact absurd (eq_of_beq hf.2) (hnone q0 hf.1)
  refine ⟨mkEnriched s mp msup, hpmem mp hmp msup hmsup, rfl, rfl, rfl, rfl, ?_, ?_⟩
  · intro hnp
    have h := hmpnull hnp
    subst h
    simp [mkEnriched, crtBoxExpr]
  · intro hns
    have h := hmsupnull hns
    subst h
    simp [mkEnriched]

theorem left_join_preserves_sales_witness :
    ∃ r ∈ enrichedTable [⟨"7", some 3, 4, "B"⟩] [] [],
      r.code = "7" ∧ r.salesDate = some 3 ∧ r.qty = 4 ∧ r.route = "B" ∧
      ((∀ p ∈ ([] : List ProductRow), sqlTrim "7" ≠ sqlTrim p.code) →
        r.description = none ∧ r.cake = none ∧ r.cratesBox = none ∧ r.crtBox = none) ∧
      ((∀ sup ∈ ([] : List SupervisorRow), "B" ≠ sup.route) → r.supervisor = none) :=
  left_join_preserves_sales [⟨"7", some 3, 4, "B"⟩] [] [] ⟨"7", some 3, 4, "B"⟩
    (by decide)

/-- C9: `load_data` drops exactly the rows whose sale date fails coercion:
a row is in the loaded frame iff it is the projection of a query row with a
valid (`some`) coerced date. The pipeline never fails on an invalid date. -/
theorem loadData_mem_iff (complete : List EnrichedRow) (r : LoadedRow) :
    r ∈ loadData complete ↔
      ∃ e ∈ complete, ∃ d : Int, e.salesDate = some d ∧ r = projectLoaded e d := by
  simp only [loadData, List.mem_filterMap]
  constructor
  · rintro ⟨e, he, hr⟩
    cases hd : e.salesDate with
    | none => rw [hd] at hr; cases hr
    | some d =>
      rw [hd] at hr
      exact ⟨e, he, d, hd, (Option.some_inj.mp hr).symm⟩
  · rintro ⟨e, he, d, hd, rfl⟩
    exact ⟨e, he, by rw [hd]⟩

/-- Unfolding of the boolean row mask of `filtered_data`. -/
theorem rowKeep_eq_true_iff (startDate endDate : Int) (supSel : List String)
    (cbSel : List ℚ) (r : LoadedRow) :
    rowKeep startDate endDate supSel cbSel r = true ↔
      (startDate ≤ r.date ∧ r.date ≤ endDate ∧
       (∃ s, r.supervisor = some s ∧ s ∈ supSel) ∧
       (∃ c, r.cratesBox = some c ∧ c ∈ cbSel)) := by
  unfold rowKeep
  cases hs : r.supervisor <;> cases hc : r.cratesBox <;> simp [and_assoc]

/-- C4: with a valid range (`start ≤ end`) and non-empty supervisor and
crates-per-box selections, a row is kept by `filtered_data` iff it is in
the loaded data, its date lies in `[start, end]` inclusive, its supervisor
is selected and its crates-per-box value is selected; in particular no
kept row's date falls outside the inclusive range. -/
theorem filteredData_mem_iff (data : List LoadedRow) (startDate endDate : Int)
    (supSel : List String) (cbSel : List ℚ) (hse : startDate ≤ endDate)
    (hsup : supSel ≠ []) (hcb : cbSel ≠ []) (r : LoadedRow) :
    r ∈ filteredData startDate endDate supSel cbSel data ↔
      (r ∈ data ∧ startDate ≤ r.date ∧ r.date ≤ endDate ∧
       (∃ s, r.supervisor = some s ∧ s ∈ supSel) ∧
       (∃ c, r.cratesBox = some c ∧ c ∈ cbSel)) := by
  unfold filteredData
  rw [if_pos ⟨hsup, hcb⟩, List.mem_filter, rowKeep_eq_true_iff]

theorem filteredData_mem_iff_witness :
    (0 : Int) ≤ 1 ∧ (["X"] : List String) ≠ [] ∧ ([2] : List ℚ) ≠ [] ∧
    ((⟨0, "A", some 2, some 1, some "X"⟩ : LoadedRow) ∈
        filteredData 0 1 ["X"] [2] [⟨0, "A", some 2, some 1, some "X"⟩] ↔
      ((⟨0, "A", some 2, some 1, some "X"⟩ : LoadedRow) ∈
          [(⟨0, "A", some 2, some 1, some "X"⟩ : LoadedRow)] ∧
        (0 : Int) ≤ 0 ∧ (0 : Int) ≤ 1 ∧
        (∃ s, (some "X" : Option String) = some s ∧ s ∈ ["X"]) ∧
        (∃ c, (some 2 : Option ℚ) = some c ∧ c ∈ ([2] : List ℚ)))) :=
  ⟨by decide, by decide, by decide,
    filteredData_mem_iff [⟨0, "A", some 2, some 1, some "X"⟩] 0 1 ["X"] [2]
      (by decide) (by decide) (by decide) ⟨0, "A", some 2, some 1, some "X"⟩⟩

/-- C5: an empty selected-supervisor set or an empty selected
crates-per-box set yields an empty filtered table, not the unfiltered
one. -/
theorem filteredData_empty_selection (data : List LoadedRow)
    (startDate endDate : Int) (supSel : List String) (cbSel : List ℚ)
    (h : supSel = [] ∨ cbSel = []) :
    filteredData startDate endDate supSel cbSel data = [] := by
  unfold filteredData
  rcases h with h | h <;> simp [h]

theorem filteredData_empty_selection_witness :
    filteredData 0 1 [] [2] [⟨0, "A", some 2, some 1, some "X"⟩] = [] :=
  filteredData_empty_selection [⟨0, "A", some 2, some 1, some "X"⟩] 0 1 [] [2]
    (Or.inl rfl)

/-- C6: when `start_date > end_date` the render cycle is rejected with a
validation error before any filtering runs: the cycle's result is the
error, not a filtered (swapped or clamped) table. -/
theorem filterCycle_rejects_inverted_range (data : List LoadedRow)
    (startDate endDate : Int) (supSel : List String) (cbSel : List ℚ)
    (h : endDate < startDate) :
    filterCycle data startDate endDate supSel cbSel =
      Except.error DashboardError.validationError := by
  unfold filterCycle
  rw [if_pos h]

theorem filterCycle_rejects_inverted_range_witness :
    filterCycle [⟨0, "A", some 2, some 1, some "X"⟩] 2 1 ["X"] [2] =
      Except.error DashboardError.validationError :=
  filterCycle_rejects_inverted_range [⟨0, "A", some 2, some 1, some "X"⟩] 2 1
    ["X"] [2] (by decide)

/-- The supervisor filter domain holds exactly the non-null supervisor
values occurring in the data. -/
theorem mem_supervisorOptions {data : List LoadedRow} {s : String} :
    s ∈ supervisorOptions data ↔ ∃ r ∈ data, r.supervisor = some s := by
  unfold supervisorOptions
  rw [List.mem_mergeSort, List.mem_dedup, List.mem_filterMap]

/-- The crates-per-box filter domain holds exactly the non-null
`Crates_Box` values occurring in the data. -/
theorem mem_cratesBoxOptions {data : List LoadedRow} {c : ℚ} :
    c ∈ cratesBoxOptions data ↔ ∃ r ∈ data, r.cratesBox = some c := by
  unfold cratesBoxOptions
  rw [List.mem_mergeSort, List.mem_dedup, List.mem_filterMap]

/-- C8: under any selection drawn from the filter domains (which hold only
distinct non-null values), every row of the filtered table carries a
non-null `Supervisor` and a non-null `Crates_Box`: rows left null by the
joins never pass the filter, even with everything selected. -/
theorem filteredData_nonnull_dims (data : List LoadedRow)
    (startDate endDate : Int) (supSel : List String) (cbSel : List ℚ)
    (hsub : ∀ s ∈ supSel, s ∈ supervisorOptions data)
    (hcsub : ∀ c ∈ cbSel, c ∈ cratesBoxOptions data) (r : LoadedRow)
    (hr : r ∈ filteredData startDate endDate supSel cbSel data) :
    r.supervisor ≠ none ∧ r.cratesBox ≠ none := by
  unfold filteredData at hr
  by_cases hcond : supSel ≠ [] ∧ cbSel ≠ []
  · rw [if_pos hcond] at hr
    have hk := (List.mem_filter.mp hr).2
    rw [rowKeep_eq_true_iff] at hk
    obtain ⟨-, -, ⟨s, hs, -⟩, ⟨c, hc, -⟩⟩ := hk
    exact ⟨by rw [hs]; exact Option.some_ne_none s, by rw [hc]; exact Option.some_ne_none c⟩
  · rw [if_neg hcond] at hr
    cases hr

theorem filteredData_nonnull_dims_witness :
    (⟨0, "A", some 2, some 1, some "X"⟩ : LoadedRow).supervisor ≠ none ∧
    (⟨0, "A", some 2, some 1, some "X"⟩ : LoadedRow).cratesBox ≠ none :=
  filteredData_nonnull_dims [⟨0, "A", some 2, some 1, some "X"⟩] 0 1 ["X"] [2]
    (fun s hs => mem_supervisorOptions.mpr
      ⟨⟨0, "A", some 2, some 1, some "X"⟩, List.mem_singleton.mpr rfl,
        by rw [List.mem_singleton.mp hs]⟩)
    (fun c hc => mem_cratesBoxOptions.mpr
      ⟨⟨0, "A", some 2, some 1, some "X"⟩, List.mem_singleton.mpr rfl,
        by rw [List.mem_singleton.mp hc]⟩)
    ⟨0, "A", some 2, some 1, some "X"⟩ (by decide)

/-- C2: for every pivot built from a filtered data set — whatever the
filter selection — each route row's `Total` column
(`pivot_table.sum(axis=1)`, a null-skipping sum computed before
`fillna(0)`) equals the row-wise sum of that row's displayed date-column
values. -/
theorem pivotTotal_eq_row_sum (data : List LoadedRow) (startDate endDate : Int)
    (supSel : List String) (cbSel : List ℚ) (route : String) :
    pivotTotal (filteredData startDate endDate supSel cbSel data) route =
      ((pivotDates (filteredData startDate endDate supSel cbSel data)).map
        (pivotCell (filteredData startDate endDate supSel cbSel data) route)).sum := by
  unfold pivotTotal pivotCell
  rw [pandasSum_eq_sum_getD, List.map_map]
  rfl

/-- C7: each displayed pivot cell is the null-safe sum of the grouped
ratios — a null ratio contributes `0` to the `(date, route)` group sum —
and a `(route, date)` combination with no rows in the filtered data gives
a cell of `0` (the `NaN` left by the reshape is filled with `0`). -/
theorem pivotCell_nullsafe (data : List LoadedRow) (route : String) (d : Int) :
    pivotCell data route d =
      ((groupRows data route d).map (fun r => r.crtBox.getD 0)).sum := by
  unfold pivotCell rawPivotCell
  by_cases hg : groupRows data route d = []
  · simp [hg]
  · rw [if_neg (by simp [List.isEmpty_iff, hg])]
    rw [Option.getD_some, pandasSum_eq_sum_getD, List.map_map]
    rfl

/-- C10: the provisioner fetches and writes the response body only when
the local file is absent, and is a no-op otherwise; a non-success status
or a transport error halts the pipeline with an error rather than leaving
a partial or absent file, and a success writes the full body. -/
theorem provisionDb_spec (fs : FileState) (fetch : FetchOutcome) :
    (fs.present = true → provisionDb fs fetch = Except.ok (fs, false)) ∧
    (fs.present = false → fetch = FetchOutcome.transportError →
      provisionDb fs fetch = Except.error ProvisionError.transport) ∧
    (∀ status body, fs.present = false → fetch = FetchOutcome.response status body →
      status ≠ 200 →
      provisionDb fs fetch = Except.error (ProvisionError.badStatus status)) ∧
    (∀ body, fs.present = false → fetch = FetchOutcome.response 200 body →
      provisionDb fs fetch =
        Except.ok ({ present := true, content := some body }, true)) := by
  unfold provisionDb
  refine ⟨fun h => by rw [if_pos h], ?_, ?_, ?_⟩
  · rintro h rfl
    rw [if_neg (by simp [h])]
  · rintro status body h rfl hs
    rw [if_neg (by simp [h])]
    simp [hs]
  · rintro body h rfl
    rw [if_neg (by simp [h])]
    simp

theorem provisionDb_spec_witness :
    provisionDb ⟨true, some [7]⟩ FetchOutcome.transportError =
      Except.ok (⟨true, some [7]⟩, false) ∧
    provisionDb ⟨false, none⟩ FetchOutcome.transportError =
      Except.error ProvisionError.transport ∧
    provisionDb ⟨false, none⟩ (FetchOutcome.response 404 [1]) =
      Except.error (ProvisionError.badStatus 404) ∧
    provisionDb ⟨false, none⟩ (FetchOutcome.response 200 [1, 2]) =
      Except.ok (⟨true, some [1, 2]⟩, true) :=
  ⟨(provisionDb_spec ⟨true, some [7]⟩ FetchOutcome.transportError).1 rfl,
   (provisionDb_spec ⟨false, none⟩ FetchOutcome.transportError).2.1 rfl rfl,
   (provisionDb_spec ⟨false, none⟩ (FetchOutcome.response 404 [1])).2.2.1 404 [1]
     rfl rfl (by decide),
   (provisionDb_spec ⟨false, none⟩ (FetchOutcome.response 200 [1, 2])).2.2.2 [1, 2]
     rfl rfl⟩
